import Mathlib

/-!
Verification development for an oil & gas financial-analysis chatbot
(`config.py`, `src/database/database.py`, `src/data/financial_data.py`,
`src/llm/openai_interface.py`, `src/utils/financial_analyzer.py`).

The embedding is shallow and executable: Python dictionaries become
structures with `Option` fields, the SQLite database becomes an explicit
`DB` state threaded through the operations, monetary amounts become `ℚ`
(SQLite REALs; every value the claims touch is exactly representable),
and wall-clock timestamps become a logical `Nat` clock (`DB.now`), which
is all the code ever compares.
-/

namespace Chatbot

/-! ## String primitives

Python string operations used by the code: `needle in hay` (contiguous
substring test) and `str.lower()`.  All strings the program matches
against are ASCII, for which `Char.toLower` agrees with Python. -/

/-- `strInAux needle rest = true` iff `needle` is a prefix of some suffix
of `rest`; the empty needle matches everywhere, as in Python. -/
def strInAux (needle : List Char) : List Char → Bool
  | [] => needle.isEmpty
  | c :: cs => needle.isPrefixOf (c :: cs) || strInAux needle cs

/-- Python `needle in hay`: contiguous-substring test. -/
def strIn (needle hay : String) : Bool :=
  strInAux needle.data hay.data

/-- Python `s.lower()` (ASCII range, which covers every string the
program compares). -/
def lowerStr (s : String) : String :=
  ⟨s.data.map Char.toLower⟩

/-! ## Database (`src/database/database.py`)

The `companies` table has `id INTEGER PRIMARY KEY AUTOINCREMENT` and
`name TEXT UNIQUE`; the `financial_reports` table has
`id INTEGER PRIMARY KEY AUTOINCREMENT` as its ONLY uniqueness
constraint — there is no UNIQUE constraint over
(company_id, report_type, quarter, year).  `INSERT OR REPLACE`
therefore only ever replaces a row that collides on `id`, which a
freshly assigned autoincrement id never does. -/

/-- A row of the `companies` table. -/
structure CompanyRow where
  id : Nat
  name : String
  symbol : String
  sector : String
  deriving Repr, DecidableEq

/-- A row of the `financial_reports` table.  `created_at` is the logical
write time (`CURRENT_TIMESTAMP` at insert); `raw_data` keeps the stored
report verbatim (the code stores `json.dumps(report_data)`; we keep the
record itself, which carries the same information). -/
structure ReportRow where
  id : Nat
  company_id : Nat
  report_type : String
  quarter : Option String
  year : Option Int
  report_date : Option String
  revenue : Option ℚ
  net_income : Option ℚ
  operating_income : Option ℚ
  free_cash_flow : Option ℚ
  total_debt : Option ℚ
  cash_and_equivalents : Option ℚ
  production_volume : Option ℚ
  production_unit : Option String
  created_at : Nat
  deriving Repr, DecidableEq

/-- The `report_data` dict passed to `store_financial_report`; `none`
models an absent key (so `dict.get` falls back to its default). -/
structure ReportData where
  report_type : Option String := none
  quarter : Option String := none
  year : Option Int := none
  report_date : Option String := none
  revenue : Option ℚ := none
  net_income : Option ℚ := none
  operating_income : Option ℚ := none
  free_cash_flow : Option ℚ := none
  total_debt : Option ℚ := none
  cash_and_equivalents : Option ℚ := none
  production_volume : Option ℚ := none
  production_unit : Option String := none
  deriving Repr, DecidableEq

/-- The SQLite database state: the two tables the claims touch, the next
autoincrement ids, and a logical clock supplying `CURRENT_TIMESTAMP`. -/
structure DB where
  companies : List CompanyRow
  reports : List ReportRow
  nextCompanyId : Nat
  nextReportId : Nat
  now : Nat
  deriving Repr, DecidableEq

/-- `DatabaseManager.get_company_id`: `SELECT id FROM companies WHERE
name = ?`, first hit or `None`. -/
def get_company_id (db : DB) (company_name : String) : Option Nat :=
  (db.companies.find? (fun c => c.name == company_name)).map (·.id)

/-- Python truthiness of the looked-up id (`if not company_id`): `None`
and `0` are falsy.  SQLite autoincrement ids start at 1, so 0 never
occurs in practice, but the check is what the code performs. -/
def truthyId : Option Nat → Bool
  | none => false
  | some n => n != 0

/-- SQLite `INSERT OR REPLACE` into `financial_reports`: delete any row
conflicting on a uniqueness constraint — for this table solely the `id`
primary key — then insert. -/
def insertOrReplaceReport (rows : List ReportRow) (r : ReportRow) : List ReportRow :=
  rows.filter (fun x => x.id != r.id) ++ [r]

/-- `DatabaseManager.store_financial_report`: look up the company id,
fail (returning `False`, state unchanged) if it is falsy, otherwise
`INSERT OR REPLACE` a new row built from `report_data` with defaults as
in the code (`report_type` defaults to `"quarterly"`, everything else to
`None`/`NULL`). -/
def store_financial_report (db : DB) (company_name : String) (rd : ReportData) :
    Bool × DB :=
  let cid? := get_company_id db company_name
  if truthyId cid? then
    match cid? with
    | none => (false, db)
    | some cid =>
      let row : ReportRow :=
        { id := db.nextReportId
          company_id := cid
          report_type := rd.report_type.getD "quarterly"
          quarter := rd.quarter
          year := rd.year
          report_date := rd.report_date
          revenue := rd.revenue
          net_income := rd.net_income
          operating_income := rd.operating_income
          free_cash_flow := rd.free_cash_flow
          total_debt := rd.total_debt
          cash_and_equivalents := rd.cash_and_equivalents
          production_volume := rd.production_volume
          production_unit := rd.production_unit
          created_at := db.now }
      (true,
        { db with
            reports := insertOrReplaceReport db.reports row
            nextReportId := db.nextReportId + 1
            now := db.now + 1 })
  else (false, db)

/-- Ordering key used by `get_latest_financial_data`'s
`ORDER BY report_date DESC, created_at DESC LIMIT 1`: `report_date` is
TEXT, compared lexicographically with NULL below every string. -/
def dateLt (a b : Option String) : Bool :=
  match a, b with
  | none, none => false
  | none, some _ => true
  | some _, none => false
  | some x, some y => x < y

/-- `a` strictly precedes `b` in the `DESC, DESC` order (so `b` wins a
`LIMIT 1`). -/
def rowLt (a b : ReportRow) : Bool :=
  dateLt a.report_date b.report_date ||
    (a.report_date == b.report_date && a.created_at < b.created_at)

/-- First maximal row under `rowLt` (the row SQLite's
`ORDER BY ... DESC LIMIT 1` returns; on full ties any tied row is
admissible and we keep the first). -/
def pickLatest : List ReportRow → Option ReportRow
  | [] => none
  | r :: rs =>
    match pickLatest rs with
    | none => some r
    | some best => if rowLt r best then some best else some r

/-- `DatabaseManager.get_latest_financial_data`: falsy company id gives
`None`; otherwise the company's report row with maximal
(report_date, created_at). -/
def get_latest_financial_data (db : DB) (company_name : String) : Option ReportRow :=
  let cid? := get_company_id db company_name
  if truthyId cid? then
    match cid? with
    | none => none
    | some cid => pickLatest (db.reports.filter (fun r => r.company_id == cid))
  else none

/-- Value of a `financial_reports` metric column by name (the code
interpolates the column name into the SQL text; the claims only use real
column names). -/
def metricVal (r : ReportRow) : String → Option ℚ
  | "revenue" => r.revenue
  | "net_income" => r.net_income
  | "operating_income" => r.operating_income
  | "free_cash_flow" => r.free_cash_flow
  | "total_debt" => r.total_debt
  | "cash_and_equivalents" => r.cash_and_equivalents
  | "production_volume" => r.production_volume
  | _ => none

/-- One row of the `get_historical_trends` result set. -/
structure TrendRow where
  quarter : Option String
  year : Option Int
  value : ℚ
  report_date : Option String
  deriving Repr, DecidableEq

/-- Insertion sort into descending `report_date` order (SQLite
`ORDER BY report_date DESC`); insertion keeps earlier rows first among
equal dates. -/
def insertByDateDesc (r : ReportRow) : List ReportRow → List ReportRow
  | [] => [r]
  | x :: xs =>
    if dateLt x.report_date r.report_date then r :: x :: xs
    else x :: insertByDateDesc r xs

/-- Sort rows by `report_date DESC`. -/
def sortByDateDesc (rows : List ReportRow) : List ReportRow :=
  rows.foldr insertByDateDesc []

/-- `DatabaseManager.get_historical_trends`: falsy company id gives `[]`;
otherwise the company's rows with a non-NULL value for the metric,
newest `report_date` first, limited to `periods`. -/
def get_historical_trends (db : DB) (company_name metric : String)
    (periods : Nat := 4) : List TrendRow :=
  let cid? := get_company_id db company_name
  if truthyId cid? then
    match cid? with
    | none => []
    | some cid =>
      let rows := db.reports.filter
        (fun r => r.company_id == cid && (metricVal r metric).isSome)
      ((sortByDateDesc rows).take periods).map (fun r =>
        { quarter := r.quarter, year := r.year,
          value := (metricVal r metric).getD 0, report_date := r.report_date })
  else []

/-- `DatabaseManager.has_recent_data`: falsy company id gives `False`;
otherwise whether any of the company's rows was written strictly after
`now - days` (logical clock; the code compares `created_at` against
`datetime.now() - timedelta(days=days)`). -/
def has_recent_data (db : DB) (company_name : String) (days : Nat := 90) : Bool :=
  let cid? := get_company_id db company_name
  if truthyId cid? then
    match cid? with
    | none => false
    | some cid =>
      (db.reports.filter
        (fun r => r.company_id == cid && db.now - days < r.created_at)).length > 0
  else false

/-- `Config.TRACKED_COMPANIES`. -/
def TRACKED_COMPANIES : List String :=
  ["Shell", "BP", "ExxonMobil", "Chevron"]

/-- The database right after `_init_database` / `_init_default_companies`:
the four default companies, no reports. -/
def initDB : DB :=
  { companies :=
      [ { id := 1, name := "Shell", symbol := "SHEL", sector := "Oil & Gas" }
      , { id := 2, name := "BP", symbol := "BP", sector := "Oil & Gas" }
      , { id := 3, name := "ExxonMobil", symbol := "XOM", sector := "Oil & Gas" }
      , { id := 4, name := "Chevron", symbol := "CVX", sector := "Oil & Gas" } ]
    reports := []
    nextCompanyId := 5
    nextReportId := 1
    now := 100 }

/-! ## Deterministic analysis engine (`src/utils/financial_analyzer.py`) -/

/-- Python `x or d` for a number drawn from a row dict: `None` and `0`
are falsy and give the default, any other number is kept (including
values strictly between 0 and 1, and negatives). -/
def orQ (x : Option ℚ) (d : ℚ) : ℚ :=
  match x with
  | none => d
  | some v => if v = 0 then d else v

/-- Result of `_calculate_financial_metrics`. -/
structure Metrics where
  profit_margin : ℚ
  cash_conversion : ℚ
  debt_ratio : ℚ
  revenue_per_boe : ℚ
  deriving Repr, DecidableEq

/-- `FinancialIntelligenceEngine._calculate_financial_metrics`.  The
guards are Python truthiness guards (`data.get(k, 0) or 1` etc.), not
`max`: a truthy value strictly between 0 and 1 is used as-is.
`production_volume` goes through `max(data.get('production_volume', 1), 1)`;
`none` models the absent/default case (a stored SQL NULL there would
raise `TypeError` in Python and is outside every claim's domain). -/
def calculate_financial_metrics (data : ReportRow) : Metrics :=
  let revenue := orQ data.revenue 1
  let net_income := orQ data.net_income 0
  let free_cash_flow := orQ data.free_cash_flow 0
  let total_debt := orQ data.total_debt 0
  let cash := orQ data.cash_and_equivalents 1
  { profit_margin := net_income / revenue * 100
    cash_conversion := free_cash_flow / max net_income 1
    debt_ratio := total_debt / cash
    revenue_per_boe := revenue / max (data.production_volume.getD 1) 1 * 1000 }

/-- The composite score computed inside
`_rank_companies_by_investment_score`:
`min(margin*2, 40) + min(|cash_conversion|*30, 30) + max(30 - debt_ratio*10, 0)`. -/
def investment_score (m : Metrics) : ℚ :=
  min (m.profit_margin * 2) 40 + min (|m.cash_conversion| * 30) 30 +
    max (30 - m.debt_ratio * 10) 0

/-- `FinancialIntelligenceEngine._rank_companies_by_investment_score`:
re-fetch each listed company's latest row, skip companies without one,
score, and stable-sort descending by score (`sorted(..., reverse=True)`). -/
def rank_companies_by_investment_score (db : DB) (companies : List String) :
    List (String × ℚ × Metrics) :=
  let ranked := companies.filterMap (fun company =>
    match get_latest_financial_data db company with
    | none => none
    | some raw =>
      let m := calculate_financial_metrics raw
      some (company, investment_score m, m))
  ranked.mergeSort (fun a b => b.2.1 ≤ a.2.1)

/-! ## Query classifier and post-processing (`src/llm/openai_interface.py`) -/

/-- `OpenAIInterface._classify_query`: the if/elif keyword chain, first
match wins, case-insensitive substring checks. -/
def classify_query (query : String) : String :=
  let q := lowerStr query
  if ["compare", "vs", "versus", "between"].any (fun w => strIn w q) then
    "comparison"
  else if ["perform", "performance", "results", "earnings"].any (fun w => strIn w q) then
    "performance"
  else if ["revenue", "income", "profit", "cash flow", "debt", "financial"].any
      (fun w => strIn w q) then
    "financial_metrics"
  else if ["production", "volume", "output", "operational", "operations"].any
      (fun w => strIn w q) then
    "operational"
  else if ["market", "stock", "investment", "valuation", "dividend"].any
      (fun w => strIn w q) then
    "market_analysis"
  else if ["risk", "challenge", "strategy", "outlook", "future"].any
      (fun w => strIn w q) then
    "risk_strategy"
  else if ["trend", "growth", "decline", "change", "over time"].any
      (fun w => strIn w q) then
    "trend_analysis"
  else
    "general"

/-- The spec's reading of the classifier (§4.3): an explicit ordered
(category, keyword-set) table scanned top-to-bottom, first match wins,
`general` as default.  Stated from the spec's words, to be compared with
`classify_query` above. -/
def categoryTable : List (String × List String) :=
  [ ("comparison", ["compare", "vs", "versus", "between"])
  , ("performance", ["perform", "performance", "results", "earnings"])
  , ("financial_metrics", ["revenue", "income", "profit", "cash flow", "debt", "financial"])
  , ("operational", ["production", "volume", "output", "operational", "operations"])
  , ("market_analysis", ["market", "stock", "investment", "valuation", "dividend"])
  , ("risk_strategy", ["risk", "challenge", "strategy", "outlook", "future"])
  , ("trend_analysis", ["trend", "growth", "decline", "change", "over time"]) ]

/-- Spec-side classifier over `categoryTable`. -/
def classifySpec (query : String) : String :=
  let q := lowerStr query
  match categoryTable.find? (fun p => p.2.any (fun w => strIn w q)) with
  | some p => p.1
  | none => "general"

/-- `OpenAIInterface._post_process_response`: prefix a category emoji
when the checked emoji is absent.  Note the `trend_analysis` branch
checks for 📈/📉 but prefixes 📊. -/
def post_process_response (response : String) (query_type : String) : String :=
  if query_type == "comparison" then
    if strIn "📊" response then response else "📊 " ++ response
  else if query_type == "performance" then
    if !strIn "📈" response && !strIn "📉" response then "📈 " ++ response else response
  else if query_type == "financial_metrics" then
    if strIn "💰" response then response else "💰 " ++ response
  else if query_type == "operational" then
    if strIn "🛢️" response then response else "🛢️ " ++ response
  else if query_type == "market_analysis" then
    if strIn "📊" response then response else "📊 " ++ response
  else if query_type == "risk_strategy" then
    if !strIn "⚠️" response && !strIn "🎯" response then "🎯 " ++ response else response
  else if query_type == "trend_analysis" then
    if !strIn "📈" response && !strIn "📉" response then "📊 " ++ response else response
  else
    response

/-! ## Context assembler (`src/data/financial_data.py`) -/

/-- The fixed `market_context` block attached to every query context. -/
structure MarketContext where
  oil_price_environment : String
  gas_price_environment : String
  sector_outlook : String
  key_challenges : List String
  key_opportunities : List String
  deriving Repr, DecidableEq

/-- The constant market-context block from `get_context_for_query`. -/
def marketContext : MarketContext :=
  { oil_price_environment := "moderate"
    gas_price_environment := "volatile"
    sector_outlook := "cautiously optimistic"
    key_challenges := ["energy transition", "regulatory pressure", "commodity volatility"]
    key_opportunities := ["LNG expansion", "renewable integration", "cost optimization"] }

/-- The `metric_keywords` table of `get_context_for_query`, in the
source's (insertion) order. -/
def metric_keywords : List (String × List String) :=
  [ ("revenue", ["revenue", "sales", "income statement"])
  , ("net_income", ["profit", "earnings", "net income", "bottom line"])
  , ("cash_flow", ["cash flow", "cash", "liquidity"])
  , ("production", ["production", "output", "volume", "barrels"])
  , ("debt", ["debt", "leverage", "borrowing"])
  , ("dividend", ["dividend", "payout", "shareholder return"]) ]

/-- `get_context_for_query`'s result dict. -/
structure QueryContext where
  query : String
  relevant_companies : List String
  relevant_metrics : List String
  comparison_data : List (String × ReportRow)
  historical_data : List (String × List (String × List TrendRow))
  market_context : MarketContext
  deriving Repr, DecidableEq

/-- `FinancialDataManager.get_context_for_query`: a company is relevant
iff its name appears (case-insensitively) in the question; when none
matches, every tracked company is relevant.  Metric tags come from
scanning `metric_keywords`.  Historical trends (revenue, net_income;
4 periods) are fetched for the first two relevant companies when the
question mentions trend/growth/performance/over time; the per-company
dict only gains entries for non-empty trend lists. -/
def get_context_for_query (db : DB) (companies : List String) (query : String) :
    QueryContext :=
  let q := lowerStr query
  let mentioned := companies.filter (fun c => strIn (lowerStr c) q)
  let rel := if mentioned.isEmpty then companies else mentioned
  let comparison := rel.filterMap (fun c =>
    (get_latest_financial_data db c).map (fun d => (c, d)))
  let metrics := (metric_keywords.filter
    (fun p => p.2.any (fun k => strIn k q))).map (·.1)
  let historical :=
    if ["trend", "growth", "performance", "over time"].any (fun w => strIn w q) then
      (rel.take 2).filterMap (fun c =>
        let ms := ["revenue", "net_income"].filterMap (fun m =>
          let trends := get_historical_trends db c m 4
          if trends.isEmpty then none else some (m, trends))
        if ms.isEmpty then none else some (c, ms))
    else []
  { query := query
    relevant_companies := rel
    relevant_metrics := metrics
    comparison_data := comparison
    historical_data := historical
    market_context := marketContext }

/-! ## Canned fallback (`OpenAIInterface._fallback_response`) -/

/-- The Shell canned response. -/
def shellFallbackText : String :=
  "Based on Shell\x27s latest financial data in our database:\n            \nShell is one of the largest integrated oil companies globally. Recent performance indicators show:\n- Strong revenue generation from both upstream and downstream operations\n- Significant cash flow from operations supporting dividend payments\n- Active portfolio optimization and capital discipline\n- Focus on energy transition and lower-carbon investments\n\nFor detailed AI-powered analysis, please add credits to your OpenAI account at platform.openai.com/billing"

/-- The BP canned response. -/
def bpFallbackText : String :=
  "Based on BP\x27s latest financial data in our database:\n            \nBP has been transforming its business model with focus on:\n- Balanced portfolio of oil, gas, and renewable energy\n- Strong free cash flow generation\n- Progressive dividend policy\n- Significant investments in low-carbon energy transition\n\nFor detailed AI-powered analysis, please add credits to your OpenAI account at platform.openai.com/billing"

/-- The ExxonMobil canned response. -/
def exxonFallbackText : String :=
  "Based on ExxonMobil\x27s latest financial data in our database:\n            \nExxonMobil remains focused on traditional oil and gas operations:\n- Leading position in U.S. shale oil production\n- Strong refining and chemical operations\n- Disciplined capital allocation approach\n- Emphasis on shareholder returns through dividends and buybacks\n\nFor detailed AI-powered analysis, please add credits to your OpenAI account at platform.openai.com/billing"

/-- The Chevron canned response. -/
def chevronFallbackText : String :=
  "Based on Chevron\x27s latest financial data in our database:\n            \nChevron maintains a conservative operational approach:\n- Strong balance sheet with low debt levels\n- Consistent dividend payments with long track record\n- Focus on low-cost, high-return projects\n- Geographic diversification across key oil regions\n\nFor detailed AI-powered analysis, please add credits to your OpenAI account at platform.openai.com/billing"

/-- The final catch-all canned response. -/
def genericFallbackText : String :=
  "I have access to financial data from Shell, BP, ExxonMobil, and Chevron, but I need OpenAI API access to provide intelligent analysis.\n\nCurrent issue: Your OpenAI API key has exceeded its quota. Please add credits at platform.openai.com/billing\n\nAvailable commands while you resolve this:\n- \x27companies\x27 - List available companies\n- \x27refresh\x27 - Update financial data\n- Ask about specific companies by name\n\nFor full intelligent analysis, please add credits to your OpenAI account."

/-- Group the (reversed) decimal digits in threes with commas, as
Python's `,` format flag does. -/
def commaRev : List Char → List Char
  | [] => []
  | [a] => [a]
  | [a, b] => [a, b]
  | [a, b, c] => [a, b, c]
  | a :: b :: c :: rest => a :: b :: c :: ',' :: commaRev rest

/-- Decimal rendering of a natural number with thousands separators. -/
def groupDigits (n : Nat) : String :=
  ⟨(commaRev (toString n).data.reverse).reverse⟩

/-- Python `round` at format time: round half to even, to an integer. -/
def bankersRound (x : ℚ) : Int :=
  let f := Int.floor x
  let r := x - f
  if r < 1 / 2 then f
  else if r > 1 / 2 then f + 1
  else if f % 2 = 0 then f else f + 1

/-- Python `f"{x:,.0f}"`. -/
def fmtComma0 (x : ℚ) : String :=
  let r := bankersRound x
  (if r < 0 then "-" else "") ++ groupDigits r.natAbs

/-- Python `f"{x:,.1f}"`. -/
def fmtComma1 (x : ℚ) : String :=
  let r := bankersRound (x * 10)
  (if r < 0 then "-" else "") ++ groupDigits (r.natAbs / 10) ++ "." ++
    toString (r.natAbs % 10)

/-- Python `f"{x:.1f}"` (no grouping). -/
def fmtPlain1 (x : ℚ) : String :=
  let r := bankersRound (x * 10)
  (if r < 0 then "-" else "") ++ toString (r.natAbs / 10) ++ "." ++
    toString (r.natAbs % 10)

/-- Python truthiness of an optional numeric field (`if revenue and ...`). -/
def truthyQ : Option ℚ → Bool
  | none => false
  | some v => v != 0

/-- Per-company block of the comparison fallback.  Numeric fields go
through `.get(k, 0)` on a row dict, so a missing value renders as 0 (a
stored SQL NULL would raise `TypeError` at Python's float-format; no
claim evaluates this branch). -/
def comparisonCompanyBlock (company : String) (r : ReportRow) : String :=
  company ++ ":\n" ++
  "  Revenue: $" ++ fmtComma0 (r.revenue.getD 0) ++ "M\n" ++
  "  Net Income: $" ++ fmtComma0 (r.net_income.getD 0) ++ "M\n" ++
  "  Free Cash Flow: $" ++ fmtComma0 (r.free_cash_flow.getD 0) ++ "M\n" ++
  "  Production: " ++ fmtComma1 (r.production_volume.getD 0) ++ " " ++
    (match r.production_unit with | some u => u | none => "None") ++ "\n" ++
  (if truthyQ r.revenue && truthyQ r.net_income && r.revenue.getD 0 > 0 then
    "  Profit Margin: " ++
      fmtPlain1 (r.net_income.getD 0 / r.revenue.getD 0 * 100) ++ "%\n"
  else "") ++
  "\n"

/-- First maximum by a rational key (what `sorted(..., reverse=True)[0]`
returns: the earliest element with maximal key, by sort stability). -/
def pickMaxByQ (key : α → ℚ) : List α → Option α
  | [] => none
  | a :: rest =>
    match pickMaxByQ key rest with
    | none => some a
    | some b => if key a < key b then some b else some a

/-- One `KEY RANKINGS` leader line. -/
def leaderLine (label : String) (key : ReportRow → ℚ)
    (companyData : List (String × ReportRow)) : String :=
  match pickMaxByQ (fun p => key p.2) companyData with
  | none => ""
  | some p => label ++ ": " ++ p.1 ++ " ($" ++ fmtComma0 (key p.2) ++ "M)\n"

/-- The comparison branch of `_fallback_response` (it opens a fresh
`DatabaseManager`, modelled by the `db` argument). -/
def comparisonFallback (db : DB) : String :=
  let companyData := ["Shell", "BP", "ExxonMobil", "Chevron"].filterMap (fun c =>
    (get_latest_financial_data db c).map (fun d => (c, d)))
  let blocks := String.join (companyData.map (fun p => comparisonCompanyBlock p.1 p.2))
  let rankings :=
    if companyData.isEmpty then ""
    else
      "KEY RANKINGS:\n" ++
      leaderLine "Revenue Leader" (fun r => r.revenue.getD 0) companyData ++
      leaderLine "Profit Leader" (fun r => r.net_income.getD 0) companyData ++
      leaderLine "Cash Flow Leader" (fun r => r.free_cash_flow.getD 0) companyData
  "📊 COMPANY PERFORMANCE COMPARISON\n\n" ++ blocks ++ rankings ++
    "\nFor detailed AI-powered analysis with market context and strategic insights, add credits at platform.openai.com/billing"

/-- `OpenAIInterface._fallback_response`: the company-name/comparison
keyword chain over the lowercased query, first match wins. -/
def fallback_response (db : DB) (user_query : String) : String :=
  let q := lowerStr user_query
  if strIn "shell" q then shellFallbackText
  else if strIn "bp" q then bpFallbackText
  else if strIn "exxonmobil" q || strIn "exxon" q then exxonFallbackText
  else if strIn "chevron" q then chevronFallbackText
  else if ["compare", "vs", "versus", "better", "best", "analytics", "perform"].any
      (fun w => strIn w q) then
    comparisonFallback db
  else genericFallbackText

/-! ## Generative responder (`OpenAIInterface.generate_response`) -/

/-- Outcome of the one `chat.completions.create` call that
`generate_response` makes when the client is configured: either the call
raised, or it returned `choices[0].message.content` (`none` models
`None`). -/
inductive ApiResult where
  | raised : ApiResult
  | returned (content : Option String) : ApiResult
  deriving Repr, DecidableEq

/-- `OpenAIInterface.generate_response`.  `clientConfigured` is whether
`OPENAI_API_KEY` was set at construction (`self.client` non-None);
`probeFailed` is the result of the one-shot `is_available` probe, which
`generate_response` never reads (the probe is only consulted by
`main.py` for a startup banner) — it is an ignored parameter here to
make that explicit.  Returns the response text and whether a network
call was attempted. -/
def generate_response (clientConfigured probeFailed : Bool) (db : DB)
    (api : ApiResult) (user_query : String) : String × Bool :=
  let _ := probeFailed
  if !clientConfigured then
    (fallback_response db user_query, false)
  else
    match api with
    | .raised => (fallback_response db user_query, true)
    | .returned content =>
      let generated :=
        match content with
        | some s => if s == "" then "No response generated" else s.trim
        | none => "No response generated"
      (post_process_response generated (classify_query user_query), true)

/-! ## Concrete fixtures used by the theorems -/

/-- A quarterly Q1-2024 report for Shell, revenue 100. -/
def rdQ1A : ReportData :=
  { report_type := some "quarterly", quarter := some "Q1", year := some 2024,
    report_date := some "2024-03-31", revenue := some 100 }

/-- The same logical period as `rdQ1A`, revenue 200 (a re-store that a
last-write-wins upsert would collapse onto the first). -/
def rdQ1B : ReportData :=
  { report_type := some "quarterly", quarter := some "Q1", year := some 2024,
    report_date := some "2024-03-31", revenue := some 200 }

/-- A stored report row with cash strictly between 0 and 1. -/
def rCash : ReportRow :=
  { id := 1, company_id := 1, report_type := "quarterly", quarter := some "Q1",
    year := some 2024, report_date := some "2024-03-31", revenue := some 100,
    net_income := some 10, operating_income := none, free_cash_flow := some 5,
    total_debt := some 10, cash_and_equivalents := some (1 / 2),
    production_volume := some 100, production_unit := some "thousand BOE/day",
    created_at := 0 }

/-- A stored report row with a loss: net_income = -100 on revenue 100,
so the computed profit margin is -100%. -/
def rNeg : ReportRow :=
  { id := 1, company_id := 1, report_type := "quarterly", quarter := some "Q1",
    year := some 2024, report_date := some "2024-03-31", revenue := some 100,
    net_income := some (-100), operating_income := none, free_cash_flow := some 0,
    total_debt := none, cash_and_equivalents := some 1,
    production_volume := some 100, production_unit := some "thousand BOE/day",
    created_at := 0 }

/-- A healthy stored report row: margin 20%, cash conversion 0.8, debt
ratio 0.5. -/
def rPos : ReportRow :=
  { id := 1, company_id := 1, report_type := "quarterly", quarter := some "Q1",
    year := some 2024, report_date := some "2024-03-31", revenue := some 80000,
    net_income := some 16000, operating_income := none,
    free_cash_flow := some 12800, total_debt := some 10000,
    cash_and_equivalents := some 20000, production_volume := some 4000,
    production_unit := some "thousand BOE/day", created_at := 0 }

/-- A numeric field that is absent, zero, or at least 1 — the region
where Python's `x or 1` guard coincides with flooring at 1. -/
def okField (x : Option ℚ) : Bool :=
  match x with
  | none => true
  | some v => v == 0 || decide (1 ≤ v)

/-- `x or 0` on a row value equals `getD 0`. -/
theorem orQ_zero (x : Option ℚ) : orQ x 0 = x.getD 0 := by
  cases x with
  | none => rfl
  | some v =>
    simp only [orQ, Option.getD_some]
    split <;> simp_all

/-- On guard-friendly fields, `x or 1` equals flooring at 1. -/
theorem orQ_one_of_ok (x : Option ℚ) (h : okField x = true) :
    orQ x 1 = max (x.getD 0) 1 := by
  cases x with
  | none => simp [orQ]
  | some v =>
    simp only [okField, Bool.or_eq_true, beq_iff_eq, decide_eq_true_eq] at h
    rcases h with h | h
    · simp [orQ, h]
    · have hv : v ≠ 0 := by linarith
      simp [orQ, hv, max_eq_left h]

/-! ## Claims -/

/-- C1: storing the same logical period (company Shell, quarterly, Q1,
2024) twice does NOT leave one record: the `financial_reports` table has
no uniqueness constraint on the period, so `INSERT OR REPLACE` inserts a
second row, and both writes' field values remain (revenue 100 and 200). -/
theorem store_same_period_twice_keeps_two_rows :
    (((store_financial_report (store_financial_report initDB "Shell" rdQ1A).2
        "Shell" rdQ1B).2.reports.filter
      (fun r => r.company_id == 1 && r.report_type == "quarterly" &&
        r.quarter == some "Q1" && r.year == some (2024 : Int))).length = 2) ∧
    (((store_financial_report (store_financial_report initDB "Shell" rdQ1A).2
        "Shell" rdQ1B).2.reports.filter
      (fun r => r.company_id == 1 && r.report_type == "quarterly" &&
        r.quarter == some "Q1" && r.year == some (2024 : Int))).map (·.revenue) =
      [some 100, some 200]) := by
  constructor <;> decide

/-- C2 (counterexample): with a configured client whose availability
probe previously failed, `generate_response` still attempts the network
call (second component `true`); and when the call succeeds with empty
content the result is the post-processed literal
`"No response generated"`, which is not the fallback text for the same
question. -/
theorem generate_response_ignores_probe_and_empty_content :
    (generate_response true true initDB (.returned (some "All good")) "hello").2 = true ∧
    (generate_response true true initDB (.returned none) "hello").1 =
      "No response generated" ∧
    fallback_response initDB "hello" ≠ "No response generated" := by
  refine ⟨rfl, by decide, by decide⟩

/-- C2 (amended): with no client configured `generate_response` returns
the canned `_fallback_response` text with no network call attempted;
when the call raises it returns the same fallback (after an attempted
call); empty/None content yields the post-processed literal
`"No response generated"` instead of the fallback.  The probe result
(`probeFailed`) is irrelevant throughout. -/
theorem generate_response_fallback_paths (pf : Bool) (db : DB) (api : ApiResult)
    (q : String) :
    generate_response false pf db api q = (fallback_response db q, false) ∧
    generate_response true pf db .raised q = (fallback_response db q, true) ∧
    (generate_response true pf db (.returned none) q).1 =
      post_process_response "No response generated" (classify_query q) := by
  exact ⟨rfl, rfl, rfl⟩

/-- C3 (counterexample): on a report with net_income -100 and revenue
100 (profit margin -100%) the composite investment score is -170, which
is negative — the claimed [0,100] bound fails. -/
theorem investment_score_negative_for_negative_margin :
    investment_score (calculate_financial_metrics rNeg) = -170 ∧
    investment_score (calculate_financial_metrics rNeg) < 0 := by
  constructor <;> norm_num [investment_score, calculate_financial_metrics, orQ, rNeg]

/-- C3 (amended): whenever the computed profit margin and debt ratio are
nonnegative, the composite investment score lies in [0,100]; the
`min(margin*2, 40)` term has no lower clamp, so negative margins escape
the interval. -/
theorem investment_score_bounds_for_nonneg_ratios (r : ReportRow)
    (hm : 0 ≤ (calculate_financial_metrics r).profit_margin)
    (hd : 0 ≤ (calculate_financial_metrics r).debt_ratio) :
    0 ≤ investment_score (calculate_financial_metrics r) ∧
    investment_score (calculate_financial_metrics r) ≤ 100 := by
  set m := calculate_financial_metrics r with hm_def
  unfold investment_score
  have a1 : (0 : ℚ) ≤ min (m.profit_margin * 2) 40 := le_min (by linarith) (by norm_num)
  have a2 : min (m.profit_margin * 2) 40 ≤ 40 := min_le_right _ _
  have b1 : (0 : ℚ) ≤ min (|m.cash_conversion| * 30) 30 :=
    le_min (by positivity) (by norm_num)
  have b2 : min (|m.cash_conversion| * 30) 30 ≤ 30 := min_le_right _ _
  have c1 : (0 : ℚ) ≤ max (30 - m.debt_ratio * 10) 0 := le_max_right _ _
  have c2 : max (30 - m.debt_ratio * 10) 0 ≤ 30 :=
    max_le (by linarith) (by norm_num)
  constructor <;> linarith

/-- C3 (witness): the healthy report `rPos` (margin 20%, debt ratio 0.5)
satisfies the hypotheses, and its score lies in [0,100]. -/
theorem investment_score_bounds_witness :
    0 ≤ investment_score (calculate_financial_metrics rPos) ∧
    investment_score (calculate_financial_metrics rPos) ≤ 100 :=
  investment_score_bounds_for_nonneg_ratios rPos
    (by norm_num [calculate_financial_metrics, orQ, rPos])
    (by norm_num [calculate_financial_metrics, orQ, rPos])

/-- C4 (counterexample): for a report with cash = 1/2 and total debt 10
the code computes debt_ratio = 20 (dividing by the raw truthy 1/2),
whereas the claimed formula `total_debt / max(cash, 1)` gives 10. -/
theorem debt_ratio_fractional_cash_divides_by_raw_value :
    (calculate_financial_metrics rCash).debt_ratio = 20 ∧
    rCash.total_debt.getD 0 / max (rCash.cash_and_equivalents.getD 0) 1 = 10 ∧
    (20 : ℚ) ≠ 10 := by
  refine ⟨?_, ?_, by norm_num⟩ <;> norm_num [calculate_financial_metrics, orQ, rCash]

/-- C4 (amended): the metrics computation is total, and on reports whose
revenue and cash are each absent, zero, or at least 1 (where Python's
`x or 1` truthiness guard coincides with flooring at 1) all four claimed
formulas hold exactly. -/
theorem metrics_formulas_on_guard_friendly_fields (r : ReportRow)
    (hrev : okField r.revenue = true) (hcash : okField r.cash_and_equivalents = true) :
    (calculate_financial_metrics r).profit_margin =
      r.net_income.getD 0 / max (r.revenue.getD 0) 1 * 100 ∧
    (calculate_financial_metrics r).cash_conversion =
      r.free_cash_flow.getD 0 / max (r.net_income.getD 0) 1 ∧
    (calculate_financial_metrics r).debt_ratio =
      r.total_debt.getD 0 / max (r.cash_and_equivalents.getD 0) 1 ∧
    (calculate_financial_metrics r).revenue_per_boe =
      max (r.revenue.getD 0) 1 / max (r.production_volume.getD 1) 1 * 1000 := by
  unfold calculate_financial_metrics
  rw [orQ_zero, orQ_zero, orQ_zero, orQ_one_of_ok _ hrev, orQ_one_of_ok _ hcash]
  exact ⟨rfl, rfl, rfl, rfl⟩

/-- C4 (witness): the report `rPos` satisfies the guard-friendly
hypotheses and all four formulas. -/
theorem metrics_formulas_witness :
    (calculate_financial_metrics rPos).profit_margin =
      rPos.net_income.getD 0 / max (rPos.revenue.getD 0) 1 * 100 ∧
    (calculate_financial_metrics rPos).cash_conversion =
      rPos.free_cash_flow.getD 0 / max (rPos.net_income.getD 0) 1 ∧
    (calculate_financial_metrics rPos).debt_ratio =
      rPos.total_debt.getD 0 / max (rPos.cash_and_equivalents.getD 0) 1 ∧
    (calculate_financial_metrics rPos).revenue_per_boe =
      max (rPos.revenue.getD 0) 1 / max (rPos.production_volume.getD 1) 1 * 1000 :=
  metrics_formulas_on_guard_friendly_fields rPos (by decide) (by decide)

/-- C5: the emoji post-processing is NOT idempotent for
`trend_analysis`: that branch checks for 📈/📉 but prefixes 📊, so a
second application prefixes 📊 again. -/
theorem post_process_trend_analysis_not_idempotent :
    post_process_response (post_process_response "Oil output is rising" "trend_analysis")
        "trend_analysis" ≠
      post_process_response "Oil output is rising" "trend_analysis" := by
  decide

/-- C6: storing a report addressed to a company name absent from the
`companies` table returns `False` and leaves the database state entirely
unchanged. -/
theorem store_unknown_company_rejected_no_state_change (db : DB) (name : String)
    (rd : ReportData) (h : ∀ c ∈ db.companies, c.name ≠ name) :
    store_financial_report db name rd = (false, db) := by
  have hid : get_company_id db name = none := by
    unfold get_company_id
    rw [List.find?_eq_none.mpr]
    · rfl
    · intro c hc
      simpa using h c hc
  unfold store_financial_report
  rw [hid]
  rfl

/-- C6 (witness): TotalEnergies is not registered in the initial
database, and storing a report for it fails without a state change. -/
theorem store_unknown_company_witness :
    store_financial_report initDB "TotalEnergies" rdQ1A = (false, initDB) :=
  store_unknown_company_rejected_no_state_change initDB "TotalEnergies" rdQ1A (by decide)

/-- C7: the query classifier agrees, on every input, with the spec's
ordered (category, keyword-set) table scanned top-to-bottom with first
match winning and `general` as default; in particular
"compare revenue growth" classifies as `comparison`. -/
theorem classifier_priority_first_match_wins (q : String) :
    classify_query q = classifySpec q ∧
    classify_query "compare revenue growth" = "comparison" := by
  refine ⟨?_, by decide⟩
  simp only [classify_query, classifySpec, categoryTable]
  cases h1 : ["compare", "vs", "versus", "between"].any
      (fun w => strIn w (lowerStr q)) <;>
  cases h2 : ["perform", "performance", "results", "earnings"].any
      (fun w => strIn w (lowerStr q)) <;>
  cases h3 : ["revenue", "income", "profit", "cash flow", "debt", "financial"].any
      (fun w => strIn w (lowerStr q)) <;>
  cases h4 : ["production", "volume", "output", "operational", "operations"].any
      (fun w => strIn w (lowerStr q)) <;>
  cases h5 : ["market", "stock", "investment", "valuation", "dividend"].any
      (fun w => strIn w (lowerStr q)) <;>
  cases h6 : ["risk", "challenge", "strategy", "outlook", "future"].any
      (fun w => strIn w (lowerStr q)) <;>
  cases h7 : ["trend", "growth", "decline", "change", "over time"].any
      (fun w => strIn w (lowerStr q)) <;>
  simp [List.find?_cons, h1, h2, h3, h4, h5, h6, h7]

/-- C8: a tracked company is marked relevant iff its registered name
occurs case-insensitively in the question, with all tracked companies
relevant when none matches; "How is Shell's cash flow?" yields exactly
Shell with `cash_flow` among the relevant metrics, and "How are the
majors doing?" yields all four tracked companies. -/
theorem context_company_relevance_by_substring (db : DB) (companies : List String)
    (query : String) (c : String) (hc : c ∈ companies) :
    (c ∈ (get_context_for_query db companies query).relevant_companies ↔
      (strIn (lowerStr c) (lowerStr query) = true ∨
        ∀ c2 ∈ companies, strIn (lowerStr c2) (lowerStr query) = false)) ∧
    (get_context_for_query db TRACKED_COMPANIES
        "How is Shell\x27s cash flow?").relevant_companies = ["Shell"] ∧
    "cash_flow" ∈ (get_context_for_query db TRACKED_COMPANIES
        "How is Shell\x27s cash flow?").relevant_metrics ∧
    (get_context_for_query db TRACKED_COMPANIES
        "How are the majors doing?").relevant_companies = TRACKED_COMPANIES := by
  refine ⟨?_, by rfl, List.Mem.head _, by rfl⟩
  show c ∈ (if (companies.filter (fun x => strIn (lowerStr x) (lowerStr query))).isEmpty
      then companies
      else companies.filter (fun x => strIn (lowerStr x) (lowerStr query))) ↔ _
  by_cases hemp : (companies.filter (fun x => strIn (lowerStr x) (lowerStr query))).isEmpty
  · rw [if_pos hemp]
    have hall : ∀ c2 ∈ companies, strIn (lowerStr c2) (lowerStr query) = false := by
      intro c2 hc2
      have := List.filter_eq_nil_iff.mp (List.isEmpty_iff.mp hemp) c2 hc2
      simpa using this
    exact ⟨fun _ => Or.inr hall, fun _ => hc⟩
  · rw [if_neg hemp]
    constructor
    · intro hmem
      exact Or.inl (List.mem_filter.mp hmem).2
    · rintro (hin | hall)
      · exact List.mem_filter.mpr ⟨hc, hin⟩
      · exfalso
        apply hemp
        rw [List.isEmpty_iff, List.filter_eq_nil_iff]
        intro c2 hc2
        simp [hall c2 hc2]

/-- C8 (witness): instantiation at the initial database, the tracked
companies, the question "How is Shell's cash flow?" and company Shell. -/
theorem context_company_relevance_witness :
    ("Shell" ∈ (get_context_for_query initDB TRACKED_COMPANIES
        "How is Shell\x27s cash flow?").relevant_companies ↔
      (strIn (lowerStr "Shell") (lowerStr "How is Shell\x27s cash flow?") = true ∨
        ∀ c2 ∈ TRACKED_COMPANIES,
          strIn (lowerStr c2) (lowerStr "How is Shell\x27s cash flow?") = false)) ∧
    (get_context_for_query initDB TRACKED_COMPANIES
        "How is Shell\x27s cash flow?").relevant_companies = ["Shell"] ∧
    "cash_flow" ∈ (get_context_for_query initDB TRACKED_COMPANIES
        "How is Shell\x27s cash flow?").relevant_metrics ∧
    (get_context_for_query initDB TRACKED_COMPANIES
        "How are the majors doing?").relevant_companies = TRACKED_COMPANIES :=
  context_company_relevance_by_substring initDB TRACKED_COMPANIES
    "How is Shell\x27s cash flow?" "Shell" (by decide)

/-- C9: a question mentioning only "Exxon" matches no tracked company in
the context assembler (which requires the full registered name
"ExxonMobil" as a substring), so all four tracked companies become
relevant; yet the canned fallback's own keyword chain does recognize
"exxon" alone and returns the ExxonMobil text. -/
theorem exxon_partial_name_not_detected_but_fallback_matches (db db2 : DB) :
    (get_context_for_query db TRACKED_COMPANIES
        "How is Exxon doing?").relevant_companies = TRACKED_COMPANIES ∧
    strIn (lowerStr "ExxonMobil") (lowerStr "How is Exxon doing?") = false ∧
    fallback_response db2 "How is Exxon doing?" = exxonFallbackText := by
  exact ⟨rfl, by decide, rfl⟩

/-- C10: every read addressed to a company name absent from the
`companies` table returns absence, never an error: no latest row, empty
trend list, and no recent data. -/
theorem reads_for_unknown_company_return_absence (db : DB) (name metric : String)
    (periods days : Nat) (h : ∀ c ∈ db.companies, c.name ≠ name) :
    get_latest_financial_data db name = none ∧
    get_historical_trends db name metric periods = [] ∧
    has_recent_data db name days = false := by
  have hid : get_company_id db name = none := by
    unfold get_company_id
    rw [List.find?_eq_none.mpr]
    · rfl
    · intro c hc
      simpa using h c hc
  refine ⟨?_, ?_, ?_⟩
  · unfold get_latest_financial_data
    rw [hid]
    rfl
  · unfold get_historical_trends
    rw [hid]
    rfl
  · unfold has_recent_data
    rw [hid]
    rfl

/-- C10 (witness): reads for the unregistered name TotalEnergies against
the initial database all report absence. -/
theorem reads_for_unknown_company_witness :
    get_latest_financial_data initDB "TotalEnergies" = none ∧
    get_historical_trends initDB "TotalEnergies" "revenue" 4 = [] ∧
    has_recent_data initDB "TotalEnergies" 90 = false :=
  reads_for_unknown_company_return_absence initDB "TotalEnergies" "revenue" 4 90
    (by decide)

end Chatbot
